import Mathlib

/-
Verification of the generic-lambda-websocket-server core against its design
specification.

The development shallowly embeds the relevant TypeScript modules:
  * utils/cookie.ts           (parseCookies, getCookie)
  * services/connectionService.ts (addConnection, removeConnection)
  * services/messageService.ts (saveMessage, getSessionMessages,
                                sendToClient, persistAndSendMessage)
  * plugins/auth.ts           (getJwks, validateToken, authenticateFromCookie)
  * middleware/webSocketAuth.ts (webSocketAuthMiddleware)
  * plugins/webSocketPlugin.ts (handleConnect)
  * src/utils/errorHandler.ts (handleAuthError)

External effects (DynamoDB, the API Gateway management API, the JWKS HTTP
endpoint, jwt.verify) are modelled by explicit state passing plus outcome
parameters that stand for the response of the external system on the one
call the embedded function makes.  DynamoDB put/delete/query themselves are
modelled as always succeeding map operations; the claims under study are
about the control flow around them, not about store outages.
-/

namespace WsServer

/-! ## Cookie parsing (utils/cookie.ts)

Strings are modelled as `List Char`.  `splitSemi` is JavaScript
`s.split("; ")` (leftmost, non-overlapping matches), `splitEq` is
`s.split("=")`, and `joinEq` is `arr.join("=")`. -/

/-- Prepend a character to the first group of a split result, starting a new
group if there is none (helper for the JS `split` embeddings). -/
def consHead (c : Char) : List (List Char) → List (List Char)
  | [] => [[c]]
  | g :: gs => (c :: g) :: gs

/-- JavaScript `s.split("=")`. -/
def splitEq : List Char → List (List Char)
  | [] => [[]]
  | c :: rest => if c = '=' then [] :: splitEq rest else consHead c (splitEq rest)

/-- JavaScript `arr.join("=")`. -/
def joinEq : List (List Char) → List Char
  | [] => []
  | [g] => g
  | g :: gs => g ++ '=' :: joinEq gs

/-- JavaScript `s.split("; ")`. -/
def splitSemi : List Char → List (List Char)
  | [] => [[]]
  | [c] => [[c]]
  | c1 :: c2 :: rest =>
    if c1 = ';' ∧ c2 = ' ' then [] :: splitSemi rest
    else consHead c1 (splitSemi (c2 :: rest))

/-- Whether the string contains the separator `"; "`. -/
def hasSemiSp : List Char → Bool
  | [] => false
  | [_] => false
  | c1 :: c2 :: rest => if c1 = ';' ∧ c2 = ' ' then true else hasSemiSp (c2 :: rest)

/-- One entry of `cookieHeader.split("; ").map(...)`: split the pair on `"="`,
the key is the part before the first `"="`, the value is everything after it
(values containing `"="` are re-joined, as in the source). -/
def cookiePairOf (c : List Char) : List Char × List Char :=
  match splitEq c with
  | [] => ([], [])
  | k :: vs => (k, joinEq vs)

/-- JavaScript `Object.fromEntries` followed by property lookup: with
duplicate keys the later entry wins. -/
def objLookup (k : List Char) : List (List Char × List Char) → Option (List Char)
  | [] => none
  | p :: rest =>
    match objLookup k rest with
    | some v => some v
    | none => if p.1 = k then some p.2 else none

/-- `parseCookies` from utils/cookie.ts: a falsy (empty) header yields the
empty mapping, otherwise split on `"; "` and on the first `"="` of each pair. -/
def parseCookies (cookieHeader : List Char) : List (List Char × List Char) :=
  if cookieHeader = [] then []
  else (splitSemi cookieHeader).map cookiePairOf

/-- `getCookie` from utils/cookie.ts. -/
def getCookie (cookieHeader cookieName : List Char) : Option (List Char) :=
  objLookup cookieName (parseCookies cookieHeader)

theorem splitEq_cons (c : Char) (rest : List Char) :
    splitEq (c :: rest)
      = if c = '=' then [] :: splitEq rest else consHead c (splitEq rest) := rfl

theorem splitSemi_cons2 (c1 c2 : Char) (rest : List Char) :
    splitSemi (c1 :: c2 :: rest)
      = if c1 = ';' ∧ c2 = ' ' then [] :: splitSemi rest
        else consHead c1 (splitSemi (c2 :: rest)) := rfl

theorem hasSemiSp_cons2 (c1 c2 : Char) (rest : List Char) :
    hasSemiSp (c1 :: c2 :: rest)
      = if c1 = ';' ∧ c2 = ' ' then true else hasSemiSp (c2 :: rest) := rfl

theorem consHead_ne_nil (c : Char) (gs : List (List Char)) : consHead c gs ≠ [] := by
  cases gs <;> simp [consHead]

theorem splitEq_ne_nil (l : List Char) : splitEq l ≠ [] := by
  cases l with
  | nil => simp [splitEq]
  | cons c rest =>
    rw [splitEq_cons]
    by_cases h : c = '='
    · simp [h]
    · simp [h, consHead_ne_nil]

theorem joinEq_splitEq (l : List Char) : joinEq (splitEq l) = l := by
  induction l with
  | nil => rfl
  | cons c rest ih =>
    obtain ⟨g, gs, hg⟩ := List.exists_cons_of_ne_nil (splitEq_ne_nil rest)
    by_cases h : c = '='
    · subst h
      rw [splitEq_cons, if_pos rfl, hg]
      show '=' :: joinEq (g :: gs) = '=' :: rest
      rw [← hg, ih]
    · rw [splitEq_cons, if_neg h, hg]
      show joinEq ((c :: g) :: gs) = c :: rest
      cases gs with
      | nil =>
        have hgr : g = rest := by
          have hj : joinEq [g] = rest := by rw [← hg, ih]
          exact hj
        show c :: g = c :: rest
        rw [hgr]
      | cons g2 gs2 =>
        show (c :: g) ++ '=' :: joinEq (g2 :: gs2) = c :: rest
        have hj : g ++ '=' :: joinEq (g2 :: gs2) = rest := by
          rw [← ih, hg]
          rfl
        rw [List.cons_append, hj]

theorem splitEq_append (name value : List Char) (h : '=' ∉ name) :
    splitEq (name ++ '=' :: value) = name :: splitEq value := by
  induction name with
  | nil =>
    show splitEq ('=' :: value) = [] :: splitEq value
    rw [splitEq_cons, if_pos rfl]
  | cons c n ih =>
    have hc : c ≠ '=' := fun hcEq => h (by simp [hcEq])
    have hn : '=' ∉ n := fun hmem => h (by simp [hmem])
    rw [List.cons_append, splitEq_cons, if_neg hc, ih hn]
    rfl

theorem splitSemi_single (l : List Char) (h : hasSemiSp l = false) : splitSemi l = [l] := by
  induction l with
  | nil => rfl
  | cons c1 t ih =>
    cases t with
    | nil => rfl
    | cons c2 rest =>
      by_cases hc : c1 = ';' ∧ c2 = ' '
      · rw [hasSemiSp_cons2, if_pos hc] at h
        exact absurd h (by decide)
      · rw [hasSemiSp_cons2, if_neg hc] at h
        rw [splitSemi_cons2, if_neg hc, ih h]
        rfl

theorem splitSemi_append (a b : List Char) (h : hasSemiSp a = false) :
    splitSemi (a ++ ';' :: ' ' :: b) = a :: splitSemi b := by
  induction a with
  | nil =>
    show splitSemi (';' :: ' ' :: b) = [] :: splitSemi b
    rw [splitSemi_cons2, if_pos ⟨rfl, rfl⟩]
  | cons c1 t ih =>
    cases t with
    | nil =>
      have hne : ¬(c1 = ';' ∧ (';' : Char) = ' ') := fun hco => absurd hco.2 (by decide)
      show splitSemi (c1 :: ';' :: ' ' :: b) = [c1] :: splitSemi b
      rw [splitSemi_cons2, if_neg hne, splitSemi_cons2, if_pos ⟨rfl, rfl⟩]
      rfl
    | cons c2 rest =>
      by_cases hc : c1 = ';' ∧ c2 = ' '
      · rw [hasSemiSp_cons2, if_pos hc] at h
        exact absurd h (by decide)
      · rw [hasSemiSp_cons2, if_neg hc] at h
        have hstep := ih h
        rw [List.cons_append] at hstep
        rw [List.cons_append, List.cons_append, splitSemi_cons2, if_neg hc, hstep]
        rfl

theorem cookiePairOf_append (name value : List Char) (h : '=' ∉ name) :
    cookiePairOf (name ++ '=' :: value) = (name, value) := by
  unfold cookiePairOf
  rw [splitEq_append _ _ h]
  show (name, joinEq (splitEq value)) = (name, value)
  rw [joinEq_splitEq]

/-- C7. Cookie parsing as implemented in utils/cookie.ts: an empty cookie
header yields the empty mapping (not an error); a single-cookie header
`name=value` is split on the first `"="` so that a value containing further
`"="` characters round-trips exactly through `getCookie`; and a two-cookie
header is split on `"; "` with the same per-pair behaviour. -/
theorem cookie_roundtrip (n1 v1 name value : List Char)
    (hsep : hasSemiSp (name ++ '=' :: value) = false)
    (hname : '=' ∉ name)
    (hsep1 : hasSemiSp (n1 ++ '=' :: v1) = false)
    (hn1 : '=' ∉ n1) :
    parseCookies [] = []
    ∧ getCookie (name ++ '=' :: value) name = some value
    ∧ getCookie ((n1 ++ '=' :: v1) ++ ';' :: ' ' :: (name ++ '=' :: value)) name
        = some value := by
  refine ⟨rfl, ?_, ?_⟩
  · have hne : name ++ '=' :: value ≠ [] := by simp
    unfold getCookie parseCookies
    rw [if_neg hne, splitSemi_single _ hsep, List.map_cons, List.map_nil,
      cookiePairOf_append _ _ hname]
    simp [objLookup]
  · have hne : (n1 ++ '=' :: v1) ++ ';' :: ' ' :: (name ++ '=' :: value) ≠ [] := by simp
    unfold getCookie parseCookies
    rw [if_neg hne, splitSemi_append _ _ hsep1, splitSemi_single _ hsep,
      List.map_cons, List.map_cons, List.map_nil,
      cookiePairOf_append _ _ hn1, cookiePairOf_append _ _ hname]
    simp [objLookup]

/-- C7 witness: `getCookie` on the header `sid=x; authToken=b=c` returns the
full value `b=c` for name `authToken`, and the empty header parses to the
empty mapping. -/
theorem cookie_roundtrip_witness :
    parseCookies [] = []
    ∧ getCookie (['a', 'u', 't', 'h'] ++ '=' :: ['b', '=', 'c']) ['a', 'u', 't', 'h']
        = some ['b', '=', 'c']
    ∧ getCookie ((['s', 'i', 'd'] ++ '=' :: ['x']) ++ ';' :: ' ' ::
          (['a', 'u', 't', 'h'] ++ '=' :: ['b', '=', 'c'])) ['a', 'u', 't', 'h']
        = some ['b', '=', 'c'] :=
  cookie_roundtrip ['s', 'i', 'd'] ['x'] ['a', 'u', 't', 'h'] ['b', '=', 'c']
    (by decide) (by decide) (by decide) (by decide)

/-! ## Connection Registry (services/connectionService.ts)

DynamoDB put/delete on the connections table, keyed by `connectionId`, are
modelled as replacement/removal in an association list.  `putItem` replaces
the whole item stored under the key, as DynamoDB `PutCommand` does. -/

/-- One row of the connections table: `{connectionId, timestamp, ttl, userData}`
exactly as built by `addConnection`. -/
structure ConnectionRow where
  connectionId : String
  timestamp : Nat
  ttl : Nat
  userData : List (String × String)
deriving Repr, DecidableEq

/-- The connections table. -/
abbrev Registry := List ConnectionRow

/-- DynamoDB `GetItem`-style lookup by the partition key `connectionId`. -/
def getRow (cid : String) : Registry → Option ConnectionRow
  | [] => none
  | r :: rest => if r.connectionId = cid then some r else getRow cid rest

/-- DynamoDB `DeleteCommand` on the connections table (no error if absent). -/
def deleteRow (cid : String) : Registry → Registry
  | [] => []
  | r :: rest => if r.connectionId = cid then deleteRow cid rest else r :: deleteRow cid rest

/-- DynamoDB `PutCommand`: store the item under its key, replacing any item
already stored under the same key in full. -/
def putRow (reg : Registry) (row : ConnectionRow) : Registry :=
  row :: deleteRow row.connectionId reg

/-- `connectionService.addConnection`: builds the row with the current time
`now` (milliseconds), `ttl = floor(now / 1000) + 2h`, and the given
`userData`, then `putItem`s it. -/
def addConnection (reg : Registry) (now : Nat) (cid : String)
    (userData : List (String × String)) : Registry :=
  putRow reg ⟨cid, now, now / 1000 + 60 * 60 * 2, userData⟩

/-- `connectionService.removeConnection`. -/
def removeConnection (reg : Registry) (cid : String) : Registry :=
  deleteRow cid reg

theorem getRow_deleteRow (cid : String) (reg : Registry) :
    getRow cid (deleteRow cid reg) = none := by
  induction reg with
  | nil => rfl
  | cons r rest ih =>
    by_cases hr : r.connectionId = cid
    · simpa [deleteRow, hr] using ih
    · simpa [deleteRow, getRow, hr] using ih

theorem deleteRow_idem (cid : String) (reg : Registry) :
    deleteRow cid (deleteRow cid reg) = deleteRow cid reg := by
  induction reg with
  | nil => rfl
  | cons r rest ih =>
    by_cases hr : r.connectionId = cid
    · simpa [deleteRow, hr] using ih
    · simp [deleteRow, hr, ih]

/-! ## Message Relay (services/messageService.ts) -/

/-- TTL applied to persisted messages (30 days, in seconds). -/
def MESSAGE_TTL_SECONDS : Nat := 60 * 60 * 24 * 30

/-- One row of the messages table, as built by `saveMessage`:
`{id, connectionId, content, timestamp, ttl, sessionId, metadata?}`. -/
structure Message where
  id : String
  connectionId : String
  content : String
  timestamp : Nat
  ttl : Nat
  sessionId : String
  metadata : Option (List (String × String))
deriving Repr, DecidableEq

/-- The message built by `saveMessage` at time `now` (milliseconds): the `id`
comes from `uuidv4()` (passed in as `nid`), `timestamp = Date.now()`,
`ttl = floor(Date.now() / 1000) + MESSAGE_TTL_SECONDS`. -/
def mkMessage (nid : String) (now : Nat) (cid content sid : String)
    (md : Option (List (String × String))) : Message :=
  ⟨nid, cid, content, now, now / 1000 + MESSAGE_TTL_SECONDS, sid, md⟩

/-- Combined state touched by the message service: the messages table (in
insertion order) and the connections table. -/
structure RelayState where
  messages : List Message
  registry : Registry
deriving Repr, DecidableEq

/-- `saveMessage` with a successful `putItem`: appends the message row. -/
def saveMessage (st : RelayState) (m : Message) : RelayState :=
  { st with messages := st.messages ++ [m] }

/-- Outcome of the one `PostToConnectionCommand` that `sendToClient` issues:
either it succeeds, or it throws an error carrying a `name` and an optional
`$metadata.httpStatusCode`. -/
inductive SendOutcome where
  | ok
  | error (name : String) (httpStatusCode : Option Nat)
deriving Repr, DecidableEq

/-- Result of `sendToClient`: the returned boolean, the connections table
afterwards, and whether `connectionService.removeConnection` was invoked. -/
structure SendResult where
  success : Bool
  registry : Registry
  removeAttempted : Bool
deriving Repr, DecidableEq

/-- `messageService.sendToClient`: posts to the connection; on an error whose
`name` is `GoneException` or whose HTTP status is 410 it removes the stale
registry entry and returns false; on any other error it returns false leaving
the registry untouched. -/
def sendToClient (reg : Registry) (outcome : SendOutcome) (cid : String) : SendResult :=
  match outcome with
  | .ok => ⟨true, reg, false⟩
  | .error name status =>
    if name = "GoneException" ∨ status = some 410 then
      ⟨false, removeConnection reg cid, true⟩
    else
      ⟨false, reg, false⟩

/-- The API Gateway management API viewed as the set of connection ids it
still holds open: posting to an id it does not know raises `GoneException`
with HTTP status 410. -/
def transportSend (live : List String) (cid : String) : SendOutcome :=
  if cid ∈ live then .ok else .error "GoneException" (some 410)

/-- `sendToClient` run against the live-connection view of the transport. -/
def sendToClientLive (reg : Registry) (live : List String) (cid : String) : SendResult :=
  sendToClient reg (transportSend live cid) cid

/-- Outcome of the one messages-table `putItem` inside `saveMessage`. -/
inductive PersistOutcome where
  | ok
  | failure
deriving Repr, DecidableEq

/-- Result of `persistAndSendMessage`: the returned `Message | null` and the
state afterwards. -/
structure PersistSendResult where
  result : Option Message
  state : RelayState
deriving Repr, DecidableEq

/-- `messageService.persistAndSendMessage`: saves the message, then sends it;
returns the saved message only when `sendToClient` reported success
(`success ? message : null`); if `saveMessage` throws, the surrounding catch
returns null with nothing else having run. -/
def persistAndSendMessage (st : RelayState) (po : PersistOutcome) (so : SendOutcome)
    (nid : String) (now : Nat) (cid content sid : String)
    (md : Option (List (String × String))) : PersistSendResult :=
  match po with
  | .failure => ⟨none, st⟩
  | .ok =>
    let m := mkMessage nid now cid content sid md
    let st1 := saveMessage st m
    let sr := sendToClient st1.registry so cid
    ⟨if sr.success then some m else none, ⟨st1.messages, sr.registry⟩⟩

/-- C1 counterexample: a call in which persistence succeeds (the message row
is durably appended to the messages table) but delivery fails returns `null`,
not the created Message — refuting the claim that a Message is returned
regardless of delivery outcome whenever persistence succeeds. -/
theorem persistAndSendMessage_null_despite_durable_persist :
    (persistAndSendMessage ⟨[], []⟩ .ok (.error "InternalServerError" (some 500))
        "m1" 5000 "c1" "hello" "s1" none).result = none
    ∧ (persistAndSendMessage ⟨[], []⟩ .ok (.error "InternalServerError" (some 500))
        "m1" 5000 "c1" "hello" "s1" none).state.messages
      = [mkMessage "m1" 5000 "c1" "hello" "s1" none] := by
  constructor <;> rfl

/-- C1 amended: `persistAndSendMessage` returns the created Message iff both
persistence and delivery succeed; when persistence succeeds the message is
durably appended whatever the delivery outcome, but the call returns `null`
when delivery fails; when persistence itself fails, no Message is returned
and the whole state (Connection Registry included) is left unmodified. -/
theorem persistAndSendMessage_spec (st : RelayState) (so : SendOutcome)
    (nid : String) (now : Nat) (cid content sid : String)
    (md : Option (List (String × String))) :
    (persistAndSendMessage st .failure so nid now cid content sid md).result = none
    ∧ (persistAndSendMessage st .failure so nid now cid content sid md).state = st
    ∧ (persistAndSendMessage st .ok so nid now cid content sid md).state.messages
        = st.messages ++ [mkMessage nid now cid content sid md]
    ∧ (persistAndSendMessage st .ok so nid now cid content sid md).result
        = (if (sendToClient st.registry so cid).success = true
            then some (mkMessage nid now cid content sid md) else none) := by
  refine ⟨rfl, rfl, rfl, ?_⟩
  simp [persistAndSendMessage, saveMessage]

/-- C4 counterexample: after a first deliver to a gone connection id has
already pruned the registry entry, a second deliver to the same id invokes
`removeConnection` again — refuting the claim that the subsequent deliver
returns false "without re-attempting removal". -/
theorem second_deliver_reattempts_removal :
    (sendToClientLive (sendToClientLive [⟨"c1", 0, 7200, []⟩] [] "c1").registry
        [] "c1").removeAttempted = true := by
  rfl

/-- C4 amended: a deliver against a connection id the transport reports gone
returns false and removes the id from the Registry; a subsequent deliver to
the same id also returns false and re-issues the removal, which is an
idempotent no-op: the Registry is left exactly as after the first call. -/
theorem deliver_gone_idempotent_amended (reg : Registry) (live : List String)
    (cid : String) (h : cid ∉ live) :
    (sendToClientLive reg live cid).success = false
    ∧ getRow cid (sendToClientLive reg live cid).registry = none
    ∧ (sendToClientLive reg live cid).removeAttempted = true
    ∧ (sendToClientLive (sendToClientLive reg live cid).registry live cid).success = false
    ∧ (sendToClientLive (sendToClientLive reg live cid).registry live cid).removeAttempted
        = true
    ∧ (sendToClientLive (sendToClientLive reg live cid).registry live cid).registry
        = (sendToClientLive reg live cid).registry := by
  have hsend : ∀ r : Registry, sendToClientLive r live cid
      = ⟨false, removeConnection r cid, true⟩ := by
    intro r
    unfold sendToClientLive transportSend
    rw [if_neg h]
    rfl
  simp [hsend, removeConnection, getRow_deleteRow, deleteRow_idem]

/-- C4 witness: concrete instantiation of the amended deliver-to-gone-id
behaviour, with the transport holding no live connections. -/
theorem deliver_gone_idempotent_amended_witness :
    ("c1" ∉ ([] : List String))
    ∧ ((sendToClientLive [⟨"c1", 0, 7200, []⟩] [] "c1").success = false
      ∧ getRow "c1" (sendToClientLive [⟨"c1", 0, 7200, []⟩] [] "c1").registry = none
      ∧ (sendToClientLive [⟨"c1", 0, 7200, []⟩] [] "c1").removeAttempted = true
      ∧ (sendToClientLive (sendToClientLive [⟨"c1", 0, 7200, []⟩] [] "c1").registry
          [] "c1").success = false
      ∧ (sendToClientLive (sendToClientLive [⟨"c1", 0, 7200, []⟩] [] "c1").registry
          [] "c1").removeAttempted = true
      ∧ (sendToClientLive (sendToClientLive [⟨"c1", 0, 7200, []⟩] [] "c1").registry
          [] "c1").registry
        = (sendToClientLive [⟨"c1", 0, 7200, []⟩] [] "c1").registry) :=
  ⟨by decide, deliver_gone_idempotent_amended [⟨"c1", 0, 7200, []⟩] [] "c1" (by decide)⟩

/-- C9. A deliver that fails with a transport error that is not a
gone-connection signal (name not `GoneException`, HTTP status not 410)
returns false and leaves the Connection Registry unmodified, without even
attempting a removal. -/
theorem sendToClient_nonGone_frame (reg : Registry) (cid name : String)
    (status : Option Nat) (h1 : name ≠ "GoneException") (h2 : status ≠ some 410) :
    sendToClient reg (.error name status) cid = ⟨false, reg, false⟩ := by
  have hstep : sendToClient reg (.error name status) cid
      = if name = "GoneException" ∨ status = some 410 then
          ⟨false, removeConnection reg cid, true⟩
        else ⟨false, reg, false⟩ := rfl
  rw [hstep, if_neg]
  rintro (hname | hstatus)
  · exact h1 hname
  · exact h2 hstatus

/-- C9 witness: a throttling error (429) returns false and leaves a
one-entry registry untouched. -/
theorem sendToClient_nonGone_frame_witness :
    ("ThrottlingException" : String) ≠ "GoneException"
    ∧ (some 429 : Option Nat) ≠ some 410
    ∧ sendToClient [⟨"c1", 0, 7200, []⟩] (.error "ThrottlingException" (some 429)) "c1"
        = ⟨false, [⟨"c1", 0, 7200, []⟩], false⟩ :=
  ⟨by decide, by decide,
    sendToClient_nonGone_frame [⟨"c1", 0, 7200, []⟩] "c1" "ThrottlingException"
      (some 429) (by decide) (by decide)⟩

/-- C10. `addConnection` performs a whole-row replace: after two calls for the
same connection id, the stored row carries exactly the second call's
timestamp, ttl and userData — the first call's metadata is discarded, not
merged. -/
theorem addConnection_replaces_row (reg : Registry) (t1 t2 : Nat) (cid : String)
    (d1 d2 : List (String × String)) :
    getRow cid (addConnection (addConnection reg t1 cid d1) t2 cid d2)
      = some ⟨cid, t2, t2 / 1000 + 60 * 60 * 2, d2⟩ := by
  simp [addConnection, putRow, getRow]

/-! ## Credential Verifier (plugins/auth.ts)

`jwksCache` / `jwksLastFetch` form the process-wide key-cache state.  The
outbound HTTP fetch of the key set is modelled by a `FetchOutcome` parameter
standing for the response of the JWKS endpoint on the (at most one) fetch the
call performs.  `jwt.verify` is modelled by a per-token oracle describing the
outcome verification would have with the matching key. -/

/-- One JSON Web Key, reduced to the only attribute the code inspects when
selecting a key: its `kid`. -/
structure Jwk where
  kid : String
deriving Repr, DecidableEq

/-- The module-level cache of plugins/auth.ts: `jwksCache` (null until first
successful fetch) and `jwksLastFetch` (milliseconds). -/
structure JwksState where
  cache : Option (List Jwk)
  lastFetch : Nat
deriving Repr, DecidableEq

/-- Response of the JWKS endpoint on an outbound fetch. -/
inductive FetchOutcome where
  | ok (keys : List Jwk)
  | failure
deriving Repr, DecidableEq

/-- `config.auth.jwksCacheTTL` default: 24 hours in milliseconds. -/
def CACHE_TTL : Nat := 86400000

/-- Result of `getJwks`: the keys or the thrown error message, the cache
state afterwards, and whether an outbound fetch occurred. -/
structure GetJwksResult where
  result : Except String (List Jwk)
  state : JwksState
  fetched : Bool
deriving Repr

/-- `getJwks`: fetch and cache the key set; the cached value is returned
without any fetch while the cache is non-null and younger than the TTL; a
failing fetch throws `Failed to retrieve JWKs` leaving the cache unchanged. -/
def getJwks (st : JwksState) (now : Nat) (fetch : FetchOutcome) : GetJwksResult :=
  let doFetch : GetJwksResult :=
    match fetch with
    | .ok keys => ⟨.ok keys, ⟨some keys, now⟩, true⟩
    | .failure => ⟨.error "Failed to retrieve JWKs", st, true⟩
  match st.cache with
  | none => doFetch
  | some keys =>
    if CACHE_TTL < now - st.lastFetch then doFetch else ⟨.ok keys, st, false⟩

/-- Outcome `jwt.verify` would have for a token, once a matching key has been
found: the decoded payload (its subject), or a `TokenExpiredError`, or some
other verification failure. -/
inductive JwtVerifyOutcome where
  | ok (sub : String)
  | expiredErr
  | otherErr
deriving Repr, DecidableEq

/-- A bearer token as the code observes it: whether `jwt.decode` yields a
non-null complete decode, the `kid` of its header, and the `jwt.verify`
outcome. -/
structure Token where
  decodable : Bool
  header_kid : Option String
  verifyOutcome : JwtVerifyOutcome
deriving Repr, DecidableEq

/-- Result of `validateToken`: the verified payload subject or the thrown
error message, the key-cache state afterwards, and how many outbound key-set
fetches the call performed. -/
structure ValidateResult where
  result : Except String String
  state : JwksState
  fetchCount : Nat
deriving Repr

/-- `validateToken`: decode (else `Invalid token format`); get the key set;
select the key matching the token's `kid` (else
`Invalid token signature: Key ID not found`); verify, collapsing every
`jwt.verify` failure — expiry included — into `Invalid token`. -/
def validateToken (st : JwksState) (now : Nat) (fetch : FetchOutcome)
    (tok : Token) : ValidateResult :=
  match tok.decodable, tok.header_kid with
  | false, _ => ⟨.error "Invalid token format", st, 0⟩
  | true, none => ⟨.error "Invalid token format", st, 0⟩
  | true, some kid =>
    let g := getJwks st now fetch
    let n : Nat := if g.fetched then 1 else 0
    match g.result with
    | .error e => ⟨.error e, g.state, n⟩
    | .ok keys =>
      match keys.find? (fun k => k.kid = kid) with
      | none => ⟨.error "Invalid token signature: Key ID not found", g.state, n⟩
      | some _ =>
        match tok.verifyOutcome with
        | .ok sub => ⟨.ok sub, g.state, n⟩
        | .expiredErr => ⟨.error "Invalid token", g.state, n⟩
        | .otherErr => ⟨.error "Invalid token", g.state, n⟩

/-- `authenticateFromCookie`: returns the token payload, or null both for an
empty cookie value and for every error `validateToken` throws.  The token a
cookie value denotes is given by the decode oracle `tokenOf`. -/
def authenticateFromCookie (st : JwksState) (now : Nat) (fetch : FetchOutcome)
    (tokenOf : List Char → Token) (cookieValue : List Char) :
    Option String × JwksState :=
  if cookieValue = [] then (none, st)
  else
    match validateToken st now fetch (tokenOf cookieValue) with
    | ⟨.ok sub, st2, _⟩ => (some sub, st2)
    | ⟨.error _, st2, _⟩ => (none, st2)

/-- C5 counterexample: with a fresh cache that does not contain the token's
`kid`, `validateToken` fails with the key-not-found error after performing
zero key-set fetches — refuting the claim that exactly one re-fetch is
triggered before failing with `KeyNotFound`. -/
theorem keyNotFound_zero_fetch :
    (validateToken ⟨some [⟨"k1"⟩], 0⟩ 0 (.ok [⟨"k1"⟩])
        ⟨true, some "k2", .ok "u1"⟩).fetchCount = 0
    ∧ (validateToken ⟨some [⟨"k1"⟩], 0⟩ 0 (.ok [⟨"k1"⟩])
        ⟨true, some "k2", .ok "u1"⟩).result
      = .error "Invalid token signature: Key ID not found" := by
  constructor <;> rfl

/-- C5 amended: for a token whose `kid` is absent from the key set, the
verifier fails with the key-not-found error and performs no `kid`-triggered
re-fetch at all: with a fresh cache the call fetches zero times; with an
empty (or stale) cache the single ordinary cache-refresh fetch occurs before
the failure; and a second identical request within the cache TTL fetches
zero times — at most one outbound fetch per cache miss, never one per
request. -/
theorem validateToken_keyNotFound_fetch_behavior (keys : List Jwk)
    (lf now : Nat) (fetch : FetchOutcome) (tok : Token) (kid : String)
    (hdec : tok.decodable = true) (hkid : tok.header_kid = some kid)
    (habsent : keys.find? (fun k => k.kid = kid) = none)
    (hfresh : ¬ CACHE_TTL < now - lf) :
    validateToken ⟨some keys, lf⟩ now fetch tok
      = ⟨.error "Invalid token signature: Key ID not found", ⟨some keys, lf⟩, 0⟩
    ∧ validateToken ⟨none, lf⟩ now (.ok keys) tok
      = ⟨.error "Invalid token signature: Key ID not found", ⟨some keys, now⟩, 1⟩
    ∧ validateToken ⟨some keys, now⟩ now fetch tok
      = ⟨.error "Invalid token signature: Key ID not found", ⟨some keys, now⟩, 0⟩ := by
  have hself : ¬ CACHE_TTL < now - now := by simp
  cases tok with
  | mk d k v =>
    simp only at hdec hkid
    subst hdec
    subst hkid
    refine ⟨?_, ?_, ?_⟩ <;> simp [validateToken, getJwks, habsent, hfresh, hself]

/-- C5 witness: concrete instantiation — cached key set `[k1]`, token kid
`k2`, fresh cache (both ages zero). -/
theorem validateToken_keyNotFound_fetch_behavior_witness :
    (⟨true, some "k2", .ok "u1"⟩ : Token).decodable = true
    ∧ (validateToken ⟨some [⟨"k1"⟩], 0⟩ 0 (.ok [⟨"k1"⟩]) ⟨true, some "k2", .ok "u1"⟩
        = ⟨.error "Invalid token signature: Key ID not found", ⟨some [⟨"k1"⟩], 0⟩, 0⟩
      ∧ validateToken ⟨none, 0⟩ 0 (.ok [⟨"k1"⟩]) ⟨true, some "k2", .ok "u1"⟩
        = ⟨.error "Invalid token signature: Key ID not found", ⟨some [⟨"k1"⟩], 0⟩, 1⟩
      ∧ validateToken ⟨some [⟨"k1"⟩], 0⟩ 0 (.ok [⟨"k1"⟩]) ⟨true, some "k2", .ok "u1"⟩
        = ⟨.error "Invalid token signature: Key ID not found", ⟨some [⟨"k1"⟩], 0⟩, 0⟩) :=
  ⟨rfl, validateToken_keyNotFound_fetch_behavior [⟨"k1"⟩] 0 0 (.ok [⟨"k1"⟩])
    ⟨true, some "k2", .ok "u1"⟩ "k2" rfl rfl (by decide) (by decide)⟩

/-- C6 amended: `validateToken` does throw the distinguished
`Failed to retrieve JWKs` error when the key-set fetch fails — distinct from
each credential-invalidity error — but `authenticateFromCookie` catches every
error and returns null, so the Auth Gate's caller receives the same rejection
as for an invalid credential and cannot tell a transient key-source failure
from a permanent one. -/
theorem fetch_failure_distinct_until_collapsed (lf now : Nat)
    (tokenOf : List Char → Token) (tokStr : List Char) (kid : String)
    (hne : tokStr ≠ [])
    (hdec : (tokenOf tokStr).decodable = true)
    (hkid : (tokenOf tokStr).header_kid = some kid) :
    (validateToken ⟨none, lf⟩ now .failure (tokenOf tokStr)).result
      = .error "Failed to retrieve JWKs"
    ∧ ("Failed to retrieve JWKs" : String) ≠ "Invalid token format"
    ∧ ("Failed to retrieve JWKs" : String) ≠ "Invalid token signature: Key ID not found"
    ∧ ("Failed to retrieve JWKs" : String) ≠ "Invalid token"
    ∧ (authenticateFromCookie ⟨none, lf⟩ now .failure tokenOf tokStr).1 = none := by
  have hval : validateToken ⟨none, lf⟩ now .failure (tokenOf tokStr)
      = ⟨.error "Failed to retrieve JWKs", ⟨none, lf⟩, 1⟩ := by
    rcases htok : tokenOf tokStr with ⟨d, k, v⟩
    rw [htok] at hdec hkid
    simp only at hdec hkid
    subst hdec
    subst hkid
    rfl
  refine ⟨by rw [hval], by decide, by decide, by decide, ?_⟩
  simp [authenticateFromCookie, hne, hval]

/-- C6 witness: concrete instantiation — empty cache, failing fetch, a token
that would otherwise verify. -/
theorem fetch_failure_distinct_until_collapsed_witness :
    (['t'] : List Char) ≠ []
    ∧ ((validateToken ⟨none, 0⟩ 0 .failure
          ((fun _ => ⟨true, some "k1", .ok "u1"⟩ : List Char → Token) ['t'])).result
        = .error "Failed to retrieve JWKs"
      ∧ ("Failed to retrieve JWKs" : String) ≠ "Invalid token format"
      ∧ ("Failed to retrieve JWKs" : String) ≠ "Invalid token signature: Key ID not found"
      ∧ ("Failed to retrieve JWKs" : String) ≠ "Invalid token"
      ∧ (authenticateFromCookie ⟨none, 0⟩ 0 .failure
          (fun _ => ⟨true, some "k1", .ok "u1"⟩) ['t']).1 = none) :=
  ⟨by decide, fetch_failure_distinct_until_collapsed 0 0
    (fun _ => ⟨true, some "k1", .ok "u1"⟩) ['t'] "k1" (by decide) rfl rfl⟩

/-! ## Auth Gate (middleware/webSocketAuth.ts) and connect flow
(plugins/webSocketPlugin.ts)

The middleware's user-visible result is `{statusCode, body}` on failure and
`{statusCode, user, requestId}` on success; `body` is
`JSON.stringify({message})`, modelled by its `message` field.  The two header
slots `headers.Cookie || headers.cookie` are collapsed into one optional
header, with the empty string (falsy in the source) handled like absence.
Registry writes/removals are modelled as succeeding, so the catch-all 500
path of the source (reachable only through a store failure) does not arise. -/

/-- The user-visible result of the auth middleware. -/
structure WsAuthResult where
  statusCode : Nat
  body_message : Option String
  user : Option String
deriving Repr, DecidableEq

/-- `webSocketAuthMiddleware`: missing cookie header, missing/empty auth
cookie, or a token `authenticateFromCookie` rejects each yield a 401 after
removing the connection's Registry row; on success the row is re-registered
with the resolved identity. -/
def webSocketAuthMiddleware (reg : Registry) (jst : JwksState) (now : Nat)
    (fetch : FetchOutcome) (cookieName : List Char) (tokenOf : List Char → Token)
    (cid rid : String) (cookieHeader : Option (List Char)) :
    WsAuthResult × Registry × JwksState :=
  match cookieHeader with
  | none =>
    (⟨401, some "Missing authentication token", none⟩, removeConnection reg cid, jst)
  | some hdr =>
    if hdr = [] then
      (⟨401, some "Missing authentication token", none⟩, removeConnection reg cid, jst)
    else
      match getCookie hdr cookieName with
      | none =>
        (⟨401, some "Missing authentication token", none⟩, removeConnection reg cid, jst)
      | some tokStr =>
        if tokStr = [] then
          (⟨401, some "Missing authentication token", none⟩, removeConnection reg cid, jst)
        else
          match authenticateFromCookie jst now fetch tokenOf tokStr with
          | (none, jst2) =>
            (⟨401, some "Invalid authentication token", none⟩,
              removeConnection reg cid, jst2)
          | (some sub, jst2) =>
            (⟨200, none, some sub⟩,
              addConnection reg now cid [("requestId", rid), ("userId", sub)], jst2)

/-- `handleConnect` of plugins/webSocketPlugin.ts: stores the connection
(unauthenticated, with only the request id) and answers 200. -/
def handleConnect (reg : Registry) (now : Nat) (cid rid : String) : Nat × Registry :=
  (200, addConnection reg now cid [("requestId", rid)])

/-- A full connect attempt in the stateless transport mode, as the claims
describe it: the `$connect` registration (`handleConnect`) followed by the
auth middleware for the same connection id. -/
def connectAttempt (reg : Registry) (jst : JwksState) (now : Nat)
    (fetch : FetchOutcome) (cookieName : List Char) (tokenOf : List Char → Token)
    (cid rid : String) (cookieHeader : Option (List Char)) :
    WsAuthResult × Registry × JwksState :=
  webSocketAuthMiddleware (handleConnect reg now cid rid).2 jst now fetch
    cookieName tokenOf cid rid cookieHeader

/-- C6 counterexample: the caller of the Auth Gate sees the very same 401
response when the key-set fetch fails (for a token that would verify) as when
the credential itself is invalid — the key-source-unavailable condition is
not distinguished at the Auth Gate boundary. -/
theorem fetch_failure_indistinguishable :
    (webSocketAuthMiddleware [] ⟨none, 0⟩ 0 .failure ['a']
        (fun _ => ⟨true, some "k1", .ok "u1"⟩) "c1" "r1" (some ['a', '=', 't'])).1
      = (webSocketAuthMiddleware [] ⟨some [⟨"k1"⟩], 0⟩ 0 (.ok [⟨"k1"⟩]) ['a']
          (fun _ => ⟨true, some "k1", .otherErr⟩) "c1" "r1" (some ['a', '=', 't'])).1
    ∧ (webSocketAuthMiddleware [] ⟨none, 0⟩ 0 .failure ['a']
        (fun _ => ⟨true, some "k1", .ok "u1"⟩) "c1" "r1" (some ['a', '=', 't'])).1.statusCode
      = 401 := by
  constructor <;> rfl

/-- C2. Whenever the connect-time auth fails (missing cookie header, missing
or empty auth cookie, or a token that does not verify — every 401 outcome),
the attempt finishes with no Connection Registry row for that connection id:
the unauthenticated row created at `$connect` time has been removed. -/
theorem connect_auth_failure_leaves_no_registry_row (reg : Registry)
    (jst : JwksState) (now : Nat) (fetch : FetchOutcome) (cookieName : List Char)
    (tokenOf : List Char → Token) (cid rid : String)
    (cookieHeader : Option (List Char))
    (h : (connectAttempt reg jst now fetch cookieName tokenOf cid rid
            cookieHeader).1.statusCode = 401) :
    getRow cid (connectAttempt reg jst now fetch cookieName tokenOf cid rid
        cookieHeader).2.1 = none := by
  unfold connectAttempt webSocketAuthMiddleware at h ⊢
  repeat' split
  all_goals simp_all [removeConnection, getRow_deleteRow]

/-- C2 witness: a connect attempt with no cookie header at all is answered
401 and leaves no Registry row for the connection. -/
theorem connect_auth_failure_leaves_no_registry_row_witness :
    (connectAttempt [] ⟨none, 0⟩ 0 .failure ['a']
        (fun _ => ⟨false, none, .otherErr⟩) "c1" "r1" none).1.statusCode = 401
    ∧ getRow "c1" (connectAttempt [] ⟨none, 0⟩ 0 .failure ['a']
        (fun _ => ⟨false, none, .otherErr⟩) "c1" "r1" none).2.1 = none :=
  ⟨rfl, connect_auth_failure_leaves_no_registry_row [] ⟨none, 0⟩ 0 .failure ['a']
    (fun _ => ⟨false, none, .otherErr⟩) "c1" "r1" none rfl⟩

/-! ## Error taxonomy mapper (src/utils/errorHandler.ts) -/

/-- JavaScript `s.includes(pat)` (case-sensitive substring test). -/
def strContains (s pat : String) : Bool :=
  s.toList.tails.any (fun t => pat.toList.isPrefixOf t)

/-- The observable fields of an `AppError` / `AuthError`. -/
structure AppErrorModel where
  message : String
  statusCode : Nat
  errorCode : String
deriving Repr, DecidableEq

/-- `handleAuthError`: maps an auth error (by substring-matching its message)
onto the stable external taxonomy; it is defined in src/utils/errorHandler.ts
but is not invoked on the WebSocket connect path. -/
def handleAuthError (message code : Option String) : AppErrorModel :=
  let errorMessage : String :=
    match message with
    | none => "Authentication failed"
    | some m => if m = "" then "Authentication failed" else m
  let errorCode : String :=
    match code with
    | none => "AUTH_ERROR"
    | some c => if c = "" then "AUTH_ERROR" else c
  if strContains errorMessage "token expired" then
    ⟨"Your session has expired. Please reconnect.", 401, "TOKEN_EXPIRED"⟩
  else if strContains errorMessage "invalid token" then
    ⟨"Invalid authentication token.", 401, "INVALID_TOKEN"⟩
  else if strContains errorMessage "unauthorized" then
    ⟨"Unauthorized access.", 401, "UNAUTHORIZED"⟩
  else if strContains errorMessage "rate limit" then
    ⟨"Too many authentication attempts. Please try again later.", 429,
      "RATE_LIMIT_EXCEEDED"⟩
  else ⟨errorMessage, 401, errorCode⟩

/-- C3 counterexample: a connect attempt with an expired, correctly signed
token (kid present in the fresh cached key set, `jwt.verify` raising
`TokenExpiredError`) is answered 401 with the generic body message
`Invalid authentication token`; that response carries no `TOKEN_EXPIRED`
error code, and even `handleAuthError`, applied to the error message
`validateToken` actually throws for expiry (`Invalid token`), yields
`AUTH_ERROR`, not `TOKEN_EXPIRED`. -/
theorem expired_token_response_lacks_code :
    (connectAttempt [] ⟨some [⟨"k1"⟩], 0⟩ 0 (.ok [⟨"k1"⟩]) ['a']
        (fun _ => ⟨true, some "k1", .expiredErr⟩) "c1" "r1" (some ['a', '=', 't'])).1
      = ⟨401, some "Invalid authentication token", none⟩
    ∧ strContains "Invalid authentication token" "TOKEN_EXPIRED" = false
    ∧ (handleAuthError (some "Invalid token") none).errorCode = "AUTH_ERROR" := by
  refine ⟨rfl, by decide, by decide⟩

/-- C3 amended: connecting with an expired (well-formed, correctly signed)
token yields status 401 with the generic message
`Invalid authentication token` — no `TOKEN_EXPIRED` (or any other stable)
error code is produced on this path, because `validateToken` collapses the
expiry failure into `Invalid token` and `authenticateFromCookie` into null —
and no Connection Registry row for the connection remains. -/
theorem expired_token_connect_amended (reg : Registry) (keys : List Jwk)
    (lf now : Nat) (fetch : FetchOutcome) (cookieName : List Char)
    (tokenOf : List Char → Token) (cid rid : String) (hdr tokStr : List Char)
    (kid : String) (jk : Jwk)
    (hcookie : getCookie hdr cookieName = some tokStr)
    (hne : tokStr ≠ []) (hhdr : hdr ≠ [])
    (hdec : (tokenOf tokStr).decodable = true)
    (hkid : (tokenOf tokStr).header_kid = some kid)
    (hfound : keys.find? (fun k => k.kid = kid) = some jk)
    (hexp : (tokenOf tokStr).verifyOutcome = .expiredErr)
    (hfresh : ¬ CACHE_TTL < now - lf) :
    (connectAttempt reg ⟨some keys, lf⟩ now fetch cookieName tokenOf cid rid
        (some hdr)).1
      = ⟨401, some "Invalid authentication token", none⟩
    ∧ getRow cid (connectAttempt reg ⟨some keys, lf⟩ now fetch cookieName tokenOf
        cid rid (some hdr)).2.1 = none := by
  have hval : validateToken ⟨some keys, lf⟩ now fetch (tokenOf tokStr)
      = ⟨.error "Invalid token", ⟨some keys, lf⟩, 0⟩ := by
    rcases htok : tokenOf tokStr with ⟨d, k, v⟩
    rw [htok] at hdec hkid hexp
    simp only at hdec hkid hexp
    subst hdec
    subst hkid
    subst hexp
    simp [validateToken, getJwks, hfresh, hfound]
  have hauth : authenticateFromCookie ⟨some keys, lf⟩ now fetch tokenOf tokStr
      = (none, ⟨some keys, lf⟩) := by
    simp [authenticateFromCookie, hne, hval]
  have hfinal : connectAttempt reg ⟨some keys, lf⟩ now fetch cookieName tokenOf
      cid rid (some hdr)
      = (⟨401, some "Invalid authentication token", none⟩,
          removeConnection (handleConnect reg now cid rid).2 cid, ⟨some keys, lf⟩) := by
    simp [connectAttempt, webSocketAuthMiddleware, hhdr, hne, hcookie, hauth]
  rw [hfinal]
  exact ⟨rfl, getRow_deleteRow cid _⟩

/-- C3 amended witness: concrete instantiation of the expired-token connect
attempt. -/
theorem expired_token_connect_amended_witness :
    getCookie ['a', '=', 't'] ['a'] = some ['t']
    ∧ ((connectAttempt [] ⟨some [⟨"k1"⟩], 0⟩ 0 (.ok [⟨"k1"⟩]) ['a']
          (fun _ => ⟨true, some "k1", .expiredErr⟩) "c1" "r1" (some ['a', '=', 't'])).1
        = ⟨401, some "Invalid authentication token", none⟩
      ∧ getRow "c1" (connectAttempt [] ⟨some [⟨"k1"⟩], 0⟩ 0 (.ok [⟨"k1"⟩]) ['a']
          (fun _ => ⟨true, some "k1", .expiredErr⟩) "c1" "r1"
          (some ['a', '=', 't'])).2.1 = none) :=
  ⟨by decide, expired_token_connect_amended [] [⟨"k1"⟩] 0 0 (.ok [⟨"k1"⟩]) ['a']
    (fun _ => ⟨true, some "k1", .expiredErr⟩) "c1" "r1" ['a', '=', 't'] ['t']
    "k1" ⟨"k1"⟩ (by decide) (by decide) (by decide) rfl rfl (by decide) rfl
    (by decide)⟩

/-! ## Session-message retrieval (services/messageService.ts `getSessionMessages`)

The messages table is queried through the global secondary index
`sessionId-index`.  In template.yaml that index declares only a HASH key
(`sessionId`) and no RANGE key, so DynamoDB returns the items of a partition
in no guaranteed order and `ScanIndexForward` has nothing to sort by.  The
query is therefore modelled as a filter over the index's storage order,
which is an arbitrary input. -/

/-- DynamoDB `Query` on a hash-only GSI: the matching items in the index's
own (unspecified) storage order, truncated to `Limit`. -/
def queryBySessionIndex (indexItems : List Message) (sid : String)
    (limit : Nat) : List Message :=
  (indexItems.filter (fun m => m.sessionId = sid)).take limit

/-- `messageService.getSessionMessages`: performs the index query with
`ScanIndexForward: true`; since the index has no sort key this adds no
ordering. -/
def getSessionMessages (indexItems : List Message) (sid : String)
    (limit : Nat) : List Message :=
  queryBySessionIndex indexItems sid limit

/-- Whether a list of messages is ordered ascending by creation time. -/
def sortedByTimestamp : List Message → Bool
  | [] => true
  | [_] => true
  | a :: b :: rest => decide (a.timestamp ≤ b.timestamp) && sortedByTimestamp (b :: rest)

/-- C8, failing input: with the `sessionId-index` partition for `s1` storing
the newer message before the older one — an order DynamoDB is free to return,
the index having no RANGE key — `getSessionMessages` yields the messages of
the session not ascending by creation time, contradicting the oldest-first
retrieval the spec (and the code's own comment) require. -/
theorem getSessionMessages_unordered_at_failing_input :
    getSessionMessages
      [⟨"mB", "c1", "reply", 2000, 2592002, "s1", none⟩,
       ⟨"mA", "c1", "greeting", 1000, 2592001, "s1", none⟩] "s1" 100
      = [⟨"mB", "c1", "reply", 2000, 2592002, "s1", none⟩,
         ⟨"mA", "c1", "greeting", 1000, 2592001, "s1", none⟩]
    ∧ sortedByTimestamp (getSessionMessages
        [⟨"mB", "c1", "reply", 2000, 2592002, "s1", none⟩,
         ⟨"mA", "c1", "greeting", 1000, 2592001, "s1", none⟩] "s1" 100) = false := by
  constructor <;> rfl

end WsServer
